import Mathlib

/-!
# lvglxx: chainable C++ wrappers over the LVGL C API

A shallow embedding of `src/lvglxx.hpp`.

* The native toolkit is external.  Every call the wrappers make into it is
  appended to a log (`World.calls`); the values it hands back (`lv_*_create`,
  `lv_dropdown_get_selected`) and the constants and macros of `lvgl.h` are
  parameters, collected in `Toolkit`.
* A method returning `Child&` (always `*this`) is a state transformer that
  returns the receiver as it is after the call.
* A `const char*` argument is recorded as the pointer it is: the characters
  of the array from the pointed-to position on (`out.c_str()`, `text.data()`).
  What the toolkit reads from it is the C string `c_string`: the characters
  before the first NUL.
* `new UiEventDispatch<Child>(...)` allocates in `World.heap`; user closures
  act on the component `World.user`.
* Overloads get distinct names (`create`, `createText`, `AddCallback`,
  `AddCallback0`), and a default argument is written out where the call is
  made (`SetWidth()` is `SetWidth(LV_SIZE_CONTENT)`).
-/

namespace lvglxx

/-! ## Toolkit types (`lvgl.h`) -/

/-- An `lv_obj_t*`: the address of a native widget; `0` is `nullptr`. -/
abbrev lv_obj_ptr := Nat

/-- The null pointer. -/
def nullptr : Nat := 0

abbrev lv_flex_flow_t := Nat
abbrev lv_flex_align_t := Nat
abbrev lv_align_t := Nat
abbrev lv_state_t := Nat
abbrev lv_color_t := Nat
abbrev lv_event_code_t := Nat
abbrev lv_obj_flag_t := Nat
abbrev lv_anim_enable_t := Nat
abbrev lv_style_selector_t := Nat

/-- A `const char*`: `none` is the null pointer, `some mem` points at the
characters `mem`, which run from the pointed-to position to the end of the
array the pointer points into (its terminating NUL included, if it has one). -/
abbrev char_ptr := Option (List Char)

/-- The characters before the first NUL, as `strlen` scans them. -/
def beforeNul : List Char → List Char
  | [] => []
  | c :: rest => if c = '\x00' then [] else c :: beforeNul rest

/-- The C string a `const char*` denotes, as the toolkit reads it: the
characters before the first NUL.  `none` when there is nothing to read: a
null pointer, or an array without a NUL (reading on is undefined behaviour). -/
def c_string : char_ptr → Option String
  | none => none
  | some mem => if '\x00' ∈ mem then some (String.mk (beforeNul mem)) else none

/-- The pointer `s.c_str()` of a `std::string`: its characters followed by a NUL. -/
def c_str (s : String) : char_ptr := some (s.toList ++ ['\x00'])

/-- A `std::string_view`: a pointer and a length, with no terminator promised. -/
structure string_view where
  data : char_ptr
  size : Nat
deriving DecidableEq, Repr

/-- The characters a view denotes: the first `size` ones at `data`. -/
def string_view.text (v : string_view) : String :=
  match v.data with
  | none => ""
  | some mem => String.mk (mem.take v.size)

/-- The view `std::string_view(s, count)` of the first `count` characters of
the character array `s` (a string literal: its characters and a NUL). -/
def string_view.ofArray (s : String) (count : Nat) : string_view :=
  { data := some (s.toList ++ ['\x00']), size := count }

/-- The view a string literal converts to: `std::string_view(s)`, whose
length is `strlen(s)`. -/
def string_view.ofLiteral (s : String) : string_view :=
  { data := some (s.toList ++ ['\x00']),
    size := (beforeNul s.toList).length }

/-- The view a `std::string` converts to: its buffer and its length. -/
def string_view.ofString (s : String) : string_view :=
  { data := c_str s, size := s.length }

/-- A default-constructed view: null pointer, length zero. -/
def string_view.empty : string_view := { data := none, size := 0 }

/-- A `void*` user-data pointer: an address in `World.heap`; `0` is `nullptr`. -/
abbrev void_ptr := Nat

/-- An `lv_event_cb_t` function pointer.  The wrappers only ever pass
`UiEventDispatchBase::EventCallback`. -/
inductive lv_event_cb_t where
  | EventCallback
  | other (fn : Nat)
deriving DecidableEq, Repr

/-- An `lv_event_t` event record. -/
structure lv_event_t where
  code : lv_event_code_t
  current_target : lv_obj_ptr
  original_target : lv_obj_ptr
  param : Nat
  user_data : void_ptr
deriving DecidableEq, Repr

/-- One call into the toolkit, with the arguments it was given. -/
inductive Call where
  | lv_obj_create (parent : lv_obj_ptr)
  | lv_label_create (parent : lv_obj_ptr)
  | lv_button_create (parent : lv_obj_ptr)
  | lv_bar_create (parent : lv_obj_ptr)
  | lv_dropdown_create (parent : lv_obj_ptr)
  | lv_obj_set_flex_flow (obj : lv_obj_ptr) (flow : lv_flex_flow_t)
  | lv_obj_set_flex_align (obj : lv_obj_ptr) (main_place cross_place track_cross_place : lv_flex_align_t)
  | lv_obj_set_align (obj : lv_obj_ptr) (align : lv_align_t)
  | lv_obj_set_flex_grow (obj : lv_obj_ptr) (grow : Int)
  | lv_obj_add_flag (obj : lv_obj_ptr) (f : lv_obj_flag_t)
  | lv_obj_set_width (obj : lv_obj_ptr) (w : Int)
  | lv_obj_set_height (obj : lv_obj_ptr) (h : Int)
  | lv_obj_set_x (obj : lv_obj_ptr) (x : Int)
  | lv_obj_set_y (obj : lv_obj_ptr) (y : Int)
  | lv_obj_add_state (obj : lv_obj_ptr) (state : lv_state_t)
  | lv_obj_remove_state (obj : lv_obj_ptr) (state : lv_state_t)
  | lv_obj_remove_style_all (obj : lv_obj_ptr)
  | lv_obj_set_style_text_color (obj : lv_obj_ptr) (value : lv_color_t) (selector : lv_style_selector_t)
  | lv_obj_set_style_pad_row (obj : lv_obj_ptr) (value : Int) (selector : lv_style_selector_t)
  | lv_obj_set_style_pad_column (obj : lv_obj_ptr) (value : Int) (selector : lv_style_selector_t)
  | lv_obj_add_event_cb (obj : lv_obj_ptr) (event_cb : lv_event_cb_t) (filter : lv_event_code_t) (user_data : void_ptr)
  | lv_label_set_text (obj : lv_obj_ptr) (text : char_ptr)
  | lv_bar_set_value (obj : lv_obj_ptr) (value : Int) (anim : lv_anim_enable_t)
  | lv_dropdown_set_options (obj : lv_obj_ptr) (options : char_ptr)
  | lv_dropdown_set_selected (obj : lv_obj_ptr) (sel_opt : Nat)
  | lv_dropdown_get_selected (obj : lv_obj_ptr)
deriving DecidableEq, Repr

/-- What `lvgl.h` and the toolkit contribute: the constants and macros the
wrappers mention, and the values the toolkit returns.  A returned value is a
function of the calls made so far, the call being answered last. -/
structure Toolkit where
  LV_SIZE_CONTENT : Int
  LV_PART_MAIN : lv_style_selector_t
  LV_ANIM_OFF : lv_anim_enable_t
  LV_OBJ_FLAG_FLEX_IN_NEW_TRACK : lv_obj_flag_t
  LV_ALIGN_CENTER : lv_align_t
  LV_FLEX_FLOW_ROW_WRAP : lv_flex_flow_t
  LV_FLEX_ALIGN_START : lv_flex_align_t
  LV_FLEX_ALIGN_CENTER : lv_flex_align_t
  lv_pct : Int → Int
  created : List Call → lv_obj_ptr
  selected : List Call → Nat

/-! ## Program state -/

/-- The type-erased adapter `UiEventDispatchBase`: its virtual `Dispatch`. -/
structure UiEventDispatchBase (σ : Type) where
  Dispatch : lv_event_t → σ → σ

/-- Program state: the log of toolkit calls, the heap of dispatch adapters
(address `k + 1` is the `k`-th allocation) and the state user closures act on. -/
structure World (σ : Type) where
  calls : List Call
  heap : List (UiEventDispatchBase σ)
  user : σ

/-- Code of the wrapper layer: it may call the toolkit and allocate adapters. -/
abbrev Lv (σ : Type) (α : Type) := StateM (World σ) α

/-- Make one toolkit call that returns nothing. -/
def call {σ : Type} (c : Call) : Lv σ Unit :=
  modify fun s => { s with calls := s.calls ++ [c] }

/-- Make one `lv_*_create` call and take the handle the toolkit returns. -/
def callCreate {σ : Type} (tk : Toolkit) (c : Call) : Lv σ lv_obj_ptr := do
  call c
  return tk.created (← get).calls

/-- The `new` expression for a dispatch adapter: a fresh non-null address. -/
def new {σ : Type} (d : UiEventDispatchBase σ) : Lv σ void_ptr := do
  let s ← get
  set { s with heap := s.heap ++ [d] }
  return s.heap.length + 1

/-- Dereference an adapter pointer; `none` for null and unallocated addresses. -/
def World.deref {σ : Type} (s : World σ) (p : void_ptr) : Option (UiEventDispatchBase σ) :=
  if p = 0 then none else s.heap[p - 1]?

/-! ## Callback helper classes -/

/-- The type `ui_event_callback<WrapperType>`. -/
abbrev ui_event_callback (σ : Type) (WrapperType : Type) := WrapperType → lv_event_t → σ → σ

/-- The adapter `UiEventDispatch<WrapperType>`: `Dispatch(e)` is `cb_(wrapper_, e)`.
The reference member `wrapper_` is held as the value the wrapper had when the
adapter was built, so a typed closure does not see a later `SetObject`; the
zero-argument overload of `AddCallback` ignores the wrapper. -/
def UiEventDispatch {σ WrapperType : Type} (wrapper_ : WrapperType)
    (cb_ : ui_event_callback σ WrapperType) : UiEventDispatchBase σ :=
  { Dispatch := fun e => cb_ wrapper_ e }

/-- The toolkit's `lv_event_get_user_data`. -/
def lv_event_get_user_data (e : lv_event_t) : void_ptr := e.user_data

/-- The trampoline `UiEventDispatchBase::EventCallback`.  `none` is undefined
behaviour: the user-data is not a live adapter. -/
def UiEventDispatchBase.EventCallback {σ : Type} (e : lv_event_t) (s : World σ) : Option (World σ) :=
  match s.deref (lv_event_get_user_data e) with
  | none => none
  | some dp => some { s with user := dp.Dispatch e s.user }

/-! ## `BaseWrapper<Child>` -/

/-- What `BaseWrapper<Child>` contributes to `Child`: the member `obj_`. -/
class BaseWrapper (Child : Type) where
  obj_ : Child → lv_obj_ptr
  assign_obj_ : Child → lv_obj_ptr → Child
  obj_assign : ∀ (c : Child) (o : lv_obj_ptr), obj_ (assign_obj_ c o) = o

namespace BaseWrapper

variable {σ : Type} {Child : Type} [BaseWrapper Child]

def SetFlexFlow (self : Child) (flow : lv_flex_flow_t) : Lv σ Child := do
  call (.lv_obj_set_flex_flow (obj_ self) flow)
  return self

def SetFlexAlign (self : Child) (main_place cross_place track_cross_place : lv_flex_align_t) :
    Lv σ Child := do
  call (.lv_obj_set_flex_align (obj_ self) main_place cross_place track_cross_place)
  return self

def SetAlign (self : Child) (align : lv_align_t) : Lv σ Child := do
  call (.lv_obj_set_align (obj_ self) align)
  return self

def SetFlexGrow (self : Child) (grow : Int) : Lv σ Child := do
  call (.lv_obj_set_flex_grow (obj_ self) grow)
  return self

def SetFlexInNewTrack (tk : Toolkit) (self : Child) : Lv σ Child := do
  call (.lv_obj_add_flag (obj_ self) tk.LV_OBJ_FLAG_FLEX_IN_NEW_TRACK)
  return self

def FullWidth (tk : Toolkit) (self : Child) : Lv σ Child := do
  call (.lv_obj_set_width (obj_ self) (tk.lv_pct 100))
  return self

def SetWidth (self : Child) (width : Int) : Lv σ Child := do
  call (.lv_obj_set_width (obj_ self) width)
  return self

def SetHeight (self : Child) (height : Int) : Lv σ Child := do
  call (.lv_obj_set_height (obj_ self) height)
  return self

def SetX (self : Child) (x : Int) : Lv σ Child := do
  call (.lv_obj_set_x (obj_ self) x)
  return self

def SetY (self : Child) (y : Int) : Lv σ Child := do
  call (.lv_obj_set_y (obj_ self) y)
  return self

def AddState (self : Child) (state : lv_state_t) : Lv σ Child := do
  call (.lv_obj_add_state (obj_ self) state)
  return self

def RemoveState (self : Child) (state : lv_state_t) : Lv σ Child := do
  call (.lv_obj_remove_state (obj_ self) state)
  return self

def RemoveStyleAll (self : Child) : Lv σ Child := do
  call (.lv_obj_remove_style_all (obj_ self))
  return self

def SetTextColor (tk : Toolkit) (self : Child) (color : lv_color_t) : Lv σ Child := do
  call (.lv_obj_set_style_text_color (obj_ self) color tk.LV_PART_MAIN)
  return self

def PadRow (tk : Toolkit) (self : Child) (pad : Int) : Lv σ Child := do
  call (.lv_obj_set_style_pad_row (obj_ self) pad tk.LV_PART_MAIN)
  return self

def PadColumn (tk : Toolkit) (self : Child) (pad : Int) : Lv σ Child := do
  call (.lv_obj_set_style_pad_column (obj_ self) pad tk.LV_PART_MAIN)
  return self

def SetObject (self : Child) (object : lv_obj_ptr) : Lv σ Child := do
  return assign_obj_ self object

/-- The overload `AddCallback(ui_event_callback<Child>, lv_event_code_t)`. -/
def AddCallback (self : Child) (cb : ui_event_callback σ Child) (filter : lv_event_code_t) :
    Lv σ Child := do
  let callback ← new (UiEventDispatch self cb)
  call (.lv_obj_add_event_cb (obj_ self) lv_event_cb_t.EventCallback filter callback)
  return self

/-- The overload `AddCallback(std::function<void ()>, lv_event_code_t)`. -/
def AddCallback0 (self : Child) (cb : σ → σ) (filter : lv_event_code_t) : Lv σ Child := do
  let _ ← AddCallback self (fun (_ : Child) (_ : lv_event_t) => cb) filter
  return self

def GetObj (self : Child) : lv_obj_ptr := obj_ self

end BaseWrapper

/-! ## Concrete wrappers -/

structure Object where
  obj_ : lv_obj_ptr := nullptr
deriving DecidableEq, Repr

structure Label where
  obj_ : lv_obj_ptr := nullptr
deriving DecidableEq, Repr

structure Button where
  obj_ : lv_obj_ptr := nullptr
  thelabel : Label := {}
deriving DecidableEq, Repr

structure Bar where
  obj_ : lv_obj_ptr := nullptr
  thelabel : Label := {}
deriving DecidableEq, Repr

structure Dropdown where
  obj_ : lv_obj_ptr := nullptr
deriving DecidableEq, Repr

instance : BaseWrapper Object where
  obj_ c := c.obj_
  assign_obj_ c o := { c with obj_ := o }
  obj_assign _ _ := rfl

instance : BaseWrapper Label where
  obj_ c := c.obj_
  assign_obj_ c o := { c with obj_ := o }
  obj_assign _ _ := rfl

instance : BaseWrapper Button where
  obj_ c := c.obj_
  assign_obj_ c o := { c with obj_ := o }
  obj_assign _ _ := rfl

instance : BaseWrapper Bar where
  obj_ c := c.obj_
  assign_obj_ c o := { c with obj_ := o }
  obj_assign _ _ := rfl

instance : BaseWrapper Dropdown where
  obj_ c := c.obj_
  assign_obj_ c o := { c with obj_ := o }
  obj_assign _ _ := rfl

/-- The constructor `Object(lv_obj_t* parent)`. -/
def Object.create {σ : Type} (tk : Toolkit) (parent : lv_obj_ptr) : Lv σ Object := do
  let self : Object := {}
  return { self with obj_ := ← callCreate tk (.lv_obj_create parent) }

/-- `LabelBase<Child>::SetText`. -/
def LabelBase.SetText {σ Child : Type} [BaseWrapper Child] (self : Child) (text : string_view) :
    Lv σ Child := do
  call (.lv_label_set_text (BaseWrapper.obj_ self) text.data)
  return self

/-- The constructor `Label(lv_obj_t* parent)`, that is `LabelBase(parent)`. -/
def Label.create {σ : Type} (tk : Toolkit) (parent : lv_obj_ptr) : Lv σ Label := do
  let self : Label := {}
  return { self with obj_ := ← callCreate tk (.lv_label_create parent) }

/-- The constructor `Label(lv_obj_t* parent, std::string_view text)`. -/
def Label.createText {σ : Type} (tk : Toolkit) (parent : lv_obj_ptr) (text : string_view) :
    Lv σ Label := do
  let self : Label := {}
  let self := { self with obj_ := ← callCreate tk (.lv_label_create parent) }
  call (.lv_label_set_text self.obj_ text.data)
  return self

namespace Button

def SetText {σ : Type} (self : Button) (text : string_view) : Lv σ Button := do
  let l ← LabelBase.SetText self.thelabel text
  return { self with thelabel := l }

def GetLabel (self : Button) : Label := self.thelabel

/-- The constructor `Button(lv_obj_t* parent)`.  `SetWidth()` and `SetHeight()`
take their default argument `LV_SIZE_CONTENT`; the source has the call
`.SetAlign(LV_ALIGN_CENTER)` commented out. -/
def create {σ : Type} (tk : Toolkit) (parent : lv_obj_ptr) : Lv σ Button := do
  let self : Button := {}
  let self := { self with obj_ := ← callCreate tk (.lv_button_create parent) }
  let self := { self with thelabel := ← Label.create tk self.obj_ }
  let l ← BaseWrapper.SetWidth self.thelabel tk.LV_SIZE_CONTENT
  let l ← BaseWrapper.SetHeight l tk.LV_SIZE_CONTENT
  let l ← LabelBase.SetText l (string_view.ofLiteral "")
  return { self with thelabel := l }

/-- The constructor `Button(lv_obj_t* parent, std::string_view text)`. -/
def createText {σ : Type} (tk : Toolkit) (parent : lv_obj_ptr) (text : string_view) :
    Lv σ Button := do
  let self ← create tk parent
  SetText self text

end Button

namespace Bar

def GetLabel (self : Bar) : Label := self.thelabel

def SetValue {σ : Type} (tk : Toolkit) (self : Bar) (val : Int) : Lv σ Bar := do
  call (.lv_bar_set_value self.obj_ val tk.LV_ANIM_OFF)
  return self

def SetLabel {σ : Type} (self : Bar) (text : string_view) : Lv σ Bar := do
  let l ← LabelBase.SetText self.thelabel text
  return { self with thelabel := l }

/-- The constructor `Bar(lv_obj_t* parent)`. -/
def create {σ : Type} (tk : Toolkit) (parent : lv_obj_ptr) : Lv σ Bar := do
  let self : Bar := {}
  let self := { self with obj_ := ← callCreate tk (.lv_bar_create parent) }
  let self := { self with thelabel := ← Label.create tk self.obj_ }
  let l ← BaseWrapper.SetWidth self.thelabel tk.LV_SIZE_CONTENT
  let l ← BaseWrapper.SetHeight l tk.LV_SIZE_CONTENT
  let l ← LabelBase.SetText l (string_view.ofLiteral "")
  let l ← BaseWrapper.SetAlign l tk.LV_ALIGN_CENTER
  return { self with thelabel := l }

end Bar

namespace Dropdown

/-- The buffer `out` that `SetOptions` builds: `out += el + "\n"` for each option. -/
def optionsBuffer (options : List String) : String :=
  options.foldl (fun out el => out ++ (el ++ "\n")) ""

def SetOptions {σ : Type} (self : Dropdown) (options : List String) : Lv σ Dropdown := do
  let out := optionsBuffer options
  call (.lv_dropdown_set_options self.obj_ (c_str out))
  return self

def SetSelected {σ : Type} (self : Dropdown) (s : Nat) : Lv σ Dropdown := do
  call (.lv_dropdown_set_selected self.obj_ s)
  return self

def GetSelected {σ : Type} (tk : Toolkit) (self : Dropdown) : Lv σ Nat := do
  call (.lv_dropdown_get_selected self.obj_)
  return tk.selected (← get).calls

/-- The constructor `Dropdown(lv_obj_t* parent)`. -/
def create {σ : Type} (tk : Toolkit) (parent : lv_obj_ptr) : Lv σ Dropdown := do
  let self : Dropdown := {}
  return { self with obj_ := ← callCreate tk (.lv_dropdown_create parent) }

/-- The constructor `Dropdown(lv_obj_t* parent, std::vector<std::string> options)`. -/
def createOptions {σ : Type} (tk : Toolkit) (parent : lv_obj_ptr) (options : List String) :
    Lv σ Dropdown := do
  let self ← create tk parent
  SetOptions self options

end Dropdown

/-! ## A toolkit and a start state for concrete runs -/

/-- A toolkit that numbers its widgets `1, 2, 3, ...` in creation order. -/
def sampleToolkit : Toolkit where
  LV_SIZE_CONTENT := 2001
  LV_PART_MAIN := 0
  LV_ANIM_OFF := 0
  LV_OBJ_FLAG_FLEX_IN_NEW_TRACK := 2097152
  LV_ALIGN_CENTER := 9
  LV_FLEX_FLOW_ROW_WRAP := 4
  LV_FLEX_ALIGN_START := 0
  LV_FLEX_ALIGN_CENTER := 2
  lv_pct := fun x => x + 1000000
  created := fun l => l.length
  selected := fun _ => 0

/-- The state before any call, with a counter as user state. -/
def start : World Nat := { calls := [], heap := [], user := 0 }

/-! ## Specification-side vocabulary -/

/-- Each option followed by one newline, concatenated in list order. -/
def newlineTerminated (options : List String) : String :=
  String.join (options.map fun el => el ++ "\n")

/-- The options joined with newline separators: a newline between consecutive
options, none before the first or after the last. -/
def newlineSeparated (options : List String) : String :=
  "\n".intercalate options

/-- The options a newline-delimited buffer denotes: the pieces between newlines. -/
def delimitedOptions (buffer : String) : List (List Char) :=
  buffer.toList.splitOn '\n'

/-- The toolkit calls that create a widget. -/
def Call.isCreate : Call → Bool
  | .lv_obj_create _ => true
  | .lv_label_create _ => true
  | .lv_button_create _ => true
  | .lv_bar_create _ => true
  | .lv_dropdown_create _ => true
  | _ => false

/-- The parent argument of a create call. -/
def Call.parent? : Call → Option lv_obj_ptr
  | .lv_obj_create p => some p
  | .lv_label_create p => some p
  | .lv_button_create p => some p
  | .lv_bar_create p => some p
  | .lv_dropdown_create p => some p
  | _ => none

/-- The create calls of a log, in order. -/
def createCalls (calls : List Call) : List Call := calls.filter Call.isCreate

/-- The create calls of a log whose parent argument is `p`, in order. -/
def createCallsWithParent (p : lv_obj_ptr) (calls : List Call) : List Call :=
  calls.filter fun c => decide (c.parent? = some p)

/-- The texts the toolkit reads from the `lv_label_set_text` calls on handle
`h`, in order: the C string at each forwarded pointer. -/
def labelTexts (h : lv_obj_ptr) (calls : List Call) : List (Option String) :=
  calls.filterMap fun c =>
    match c with
    | .lv_label_set_text obj text => if obj = h then some (c_string text) else none
    | _ => none

/-- The buffers the toolkit reads from the `lv_dropdown_set_options` calls on
handle `h`, in order: the C string at each forwarded pointer. -/
def optionBuffers (h : lv_obj_ptr) (calls : List Call) : List (Option String) :=
  calls.filterMap fun c =>
    match c with
    | .lv_dropdown_set_options obj options => if obj = h then some (c_string options) else none
    | _ => none

/-! ## Method calls as data -/

/-- A call of one of the sixteen chainable `BaseWrapper` setters, with its arguments. -/
inductive Setter where
  | SetFlexFlow (flow : lv_flex_flow_t)
  | SetFlexAlign (main_place cross_place track_cross_place : lv_flex_align_t)
  | SetAlign (align : lv_align_t)
  | SetFlexGrow (grow : Int)
  | SetFlexInNewTrack
  | FullWidth
  | SetWidth (width : Int)
  | SetHeight (height : Int)
  | SetX (x : Int)
  | SetY (y : Int)
  | AddState (state : lv_state_t)
  | RemoveState (state : lv_state_t)
  | RemoveStyleAll
  | SetTextColor (color : lv_color_t)
  | PadRow (pad : Int)
  | PadColumn (pad : Int)
deriving DecidableEq, Repr

/-- Invoke a setter on `self`. -/
def Setter.invoke {σ Child : Type} [BaseWrapper Child] (tk : Toolkit) (self : Child) :
    Setter → Lv σ Child
  | .SetFlexFlow flow => BaseWrapper.SetFlexFlow self flow
  | .SetFlexAlign m c t => BaseWrapper.SetFlexAlign self m c t
  | .SetAlign align => BaseWrapper.SetAlign self align
  | .SetFlexGrow grow => BaseWrapper.SetFlexGrow self grow
  | .SetFlexInNewTrack => BaseWrapper.SetFlexInNewTrack tk self
  | .FullWidth => BaseWrapper.FullWidth tk self
  | .SetWidth width => BaseWrapper.SetWidth self width
  | .SetHeight height => BaseWrapper.SetHeight self height
  | .SetX x => BaseWrapper.SetX self x
  | .SetY y => BaseWrapper.SetY self y
  | .AddState state => BaseWrapper.AddState self state
  | .RemoveState state => BaseWrapper.RemoveState self state
  | .RemoveStyleAll => BaseWrapper.RemoveStyleAll self
  | .SetTextColor color => BaseWrapper.SetTextColor tk self color
  | .PadRow pad => BaseWrapper.PadRow tk self pad
  | .PadColumn pad => BaseWrapper.PadColumn tk self pad

/-- A chain `self.m₁(..).m₂(..)...`: each method is invoked on the reference
the previous one returned. -/
def chain {σ Child Method : Type} (invoke : Child → Method → Lv σ Child) (self : Child) :
    List Method → Lv σ Child
  | [] => pure self
  | m :: ms => do
    let r ← invoke self m
    chain invoke r ms

/-- The native setter call that corresponds to a setter, on handle `h`. -/
def Setter.nativeCall (tk : Toolkit) (h : lv_obj_ptr) : Setter → Call
  | .SetFlexFlow flow => .lv_obj_set_flex_flow h flow
  | .SetFlexAlign m c t => .lv_obj_set_flex_align h m c t
  | .SetAlign align => .lv_obj_set_align h align
  | .SetFlexGrow grow => .lv_obj_set_flex_grow h grow
  | .SetFlexInNewTrack => .lv_obj_add_flag h tk.LV_OBJ_FLAG_FLEX_IN_NEW_TRACK
  | .FullWidth => .lv_obj_set_width h (tk.lv_pct 100)
  | .SetWidth width => .lv_obj_set_width h width
  | .SetHeight height => .lv_obj_set_height h height
  | .SetX x => .lv_obj_set_x h x
  | .SetY y => .lv_obj_set_y h y
  | .AddState state => .lv_obj_add_state h state
  | .RemoveState state => .lv_obj_remove_state h state
  | .RemoveStyleAll => .lv_obj_remove_style_all h
  | .SetTextColor color => .lv_obj_set_style_text_color h color tk.LV_PART_MAIN
  | .PadRow pad => .lv_obj_set_style_pad_row h pad tk.LV_PART_MAIN
  | .PadColumn pad => .lv_obj_set_style_pad_column h pad tk.LV_PART_MAIN

/-- A call of any `BaseWrapper` operation. -/
inductive BaseOp (σ Child : Type) where
  | setter (m : Setter)
  | SetObject (object : lv_obj_ptr)
  | AddCallback (cb : ui_event_callback σ Child) (filter : lv_event_code_t)
  | AddCallback0 (cb : σ → σ) (filter : lv_event_code_t)

/-- Whether the operation is `SetObject`. -/
def BaseOp.isSetObject {σ Child : Type} : BaseOp σ Child → Bool
  | .SetObject _ => true
  | _ => false

def BaseOp.invoke {σ Child : Type} [BaseWrapper Child] (tk : Toolkit) (self : Child) :
    BaseOp σ Child → Lv σ Child
  | .setter m => m.invoke tk self
  | .SetObject object => BaseWrapper.SetObject self object
  | .AddCallback cb filter => BaseWrapper.AddCallback self cb filter
  | .AddCallback0 cb filter => BaseWrapper.AddCallback0 self cb filter

/-- A call of a `Label` method. -/
inductive LabelOp (σ : Type) where
  | base (op : BaseOp σ Label)
  | SetText (text : string_view)

def LabelOp.invoke {σ : Type} (tk : Toolkit) (self : Label) : LabelOp σ → Lv σ Label
  | .base op => op.invoke tk self
  | .SetText text => LabelBase.SetText self text

/-- A call of a `Button` method; `onLabel` is a `Label` method called on the
reference `GetLabel()` returns. -/
inductive ButtonOp (σ : Type) where
  | base (op : BaseOp σ Button)
  | SetText (text : string_view)
  | onLabel (op : LabelOp σ)

def ButtonOp.invoke {σ : Type} (tk : Toolkit) (self : Button) : ButtonOp σ → Lv σ Button
  | .base op => op.invoke tk self
  | .SetText text => Button.SetText self text
  | .onLabel op => do
    let l ← op.invoke tk (Button.GetLabel self)
    return { self with thelabel := l }

/-- A call of a `Bar` method; `onLabel` is a `Label` method called on the
reference `GetLabel()` returns. -/
inductive BarOp (σ : Type) where
  | base (op : BaseOp σ Bar)
  | SetValue (val : Int)
  | SetLabel (text : string_view)
  | onLabel (op : LabelOp σ)

def BarOp.invoke {σ : Type} (tk : Toolkit) (self : Bar) : BarOp σ → Lv σ Bar
  | .base op => op.invoke tk self
  | .SetValue val => Bar.SetValue tk self val
  | .SetLabel text => Bar.SetLabel self text
  | .onLabel op => do
    let l ← op.invoke tk (Bar.GetLabel self)
    return { self with thelabel := l }

/-- A call of a `Dropdown` method. -/
inductive DropdownOp (σ : Type) where
  | base (op : BaseOp σ Dropdown)
  | SetOptions (options : List String)
  | SetSelected (s : Nat)
  | GetSelected

def DropdownOp.invoke {σ : Type} (tk : Toolkit) (self : Dropdown) : DropdownOp σ → Lv σ Dropdown
  | .base op => op.invoke tk self
  | .SetOptions options => Dropdown.SetOptions self options
  | .SetSelected s => Dropdown.SetSelected self s
  | .GetSelected => do
    let _ ← Dropdown.GetSelected tk self
    return self

/-- The calls a run appended to the log: `after` without its prefix `before`. -/
def added (before after : List Call) : List Call := after.drop before.length

/-- Whether the call is `Label`'s inherited `SetObject`. -/
def LabelOp.isSetObject {σ : Type} : LabelOp σ → Bool
  | .base op => op.isSetObject
  | _ => false

/-- Whether the call is `Button`'s inherited `SetObject`. -/
def ButtonOp.isSetObject {σ : Type} : ButtonOp σ → Bool
  | .base op => op.isSetObject
  | _ => false

/-- Whether the call is `Bar`'s inherited `SetObject`. -/
def BarOp.isSetObject {σ : Type} : BarOp σ → Bool
  | .base op => op.isSetObject
  | _ => false

/-- Whether the call is `Dropdown`'s inherited `SetObject`. -/
def DropdownOp.isSetObject {σ : Type} : DropdownOp σ → Bool
  | .base op => op.isSetObject
  | _ => false

/-! ## Lemmas -/

theorem optionsBuffer_eq_join (options : List String) :
    Dropdown.optionsBuffer options = newlineTerminated options := by
  unfold Dropdown.optionsBuffer newlineTerminated String.join
  rw [List.foldl_map]

theorem intercalate_go_foldl (acc : String) (rest : List String) :
    String.intercalate.go acc "\n" rest ++ "\n"
      = rest.foldl (fun out el => out ++ (el ++ "\n")) (acc ++ "\n") := by
  induction rest generalizing acc with
  | nil => simp [String.intercalate.go]
  | cons a rest ih =>
    simp only [String.intercalate.go, List.foldl_cons]
    rw [ih]
    simp [String.append_assoc]

theorem optionsBuffer_data (options : List String) :
    (Dropdown.optionsBuffer options).toList
      = ['\n'].intercalate (options.map String.toList ++ [[]]) := by
  have h : ∀ (acc : String) (l : List String),
      (l.foldl (fun out el => out ++ (el ++ "\n")) acc).toList
        = acc.toList ++ ['\n'].intercalate (l.map String.toList ++ [[]]) := by
    intro acc l
    induction l generalizing acc with
    | nil => simp [List.intercalate]
    | cons a rest ih =>
      rw [List.foldl_cons, ih]
      cases rest with
      | nil => simp [List.intercalate]
      | cons b rest => simp [List.intercalate]
  simpa using h "" options

theorem Setter_invoke_run {σ Child : Type} [BaseWrapper Child] (tk : Toolkit) (self : Child)
    (m : Setter) (s : World σ) :
    (m.invoke tk self).run s
      = (self, { s with calls := s.calls ++ [m.nativeCall tk (BaseWrapper.obj_ self)] }) := by
  cases m <;> rfl

theorem chain_cons_run {σ Child Method : Type} (invoke : Child → Method → Lv σ Child)
    (self : Child) (m : Method) (ms : List Method) (s : World σ) :
    (chain invoke self (m :: ms)).run s
      = (chain invoke ((invoke self m).run s).1 ms).run ((invoke self m).run s).2 := rfl

theorem chain_setters_run {σ Child : Type} [BaseWrapper Child] (tk : Toolkit) (self : Child)
    (ms : List Setter) (s : World σ) :
    (chain (Setter.invoke tk) self ms).run s
      = (self, { s with
          calls := s.calls ++ ms.map (Setter.nativeCall tk (BaseWrapper.obj_ self)) }) := by
  induction ms generalizing s with
  | nil => simp [chain, StateT.run, pure, StateT.pure]
  | cons m ms ih =>
    rw [chain_cons_run, Setter_invoke_run, ih]
    simp

theorem added_append (before new : List Call) : added before (before ++ new) = new := by
  simp [added]

theorem Button_create_run {σ : Type} (tk : Toolkit) (parent : lv_obj_ptr) (s : World σ) :
    (Button.create tk parent).run s
      = ({ obj_ := tk.created (s.calls ++ [Call.lv_button_create parent]),
           thelabel := { obj_ := tk.created (s.calls ++ [Call.lv_button_create parent,
             Call.lv_label_create (tk.created (s.calls ++ [Call.lv_button_create parent]))]) } },
         { s with calls := s.calls ++
            [Call.lv_button_create parent,
             Call.lv_label_create (tk.created (s.calls ++ [Call.lv_button_create parent])),
             Call.lv_obj_set_width (tk.created (s.calls ++ [Call.lv_button_create parent,
               Call.lv_label_create (tk.created (s.calls ++ [Call.lv_button_create parent]))]))
               tk.LV_SIZE_CONTENT,
             Call.lv_obj_set_height (tk.created (s.calls ++ [Call.lv_button_create parent,
               Call.lv_label_create (tk.created (s.calls ++ [Call.lv_button_create parent]))]))
               tk.LV_SIZE_CONTENT,
             Call.lv_label_set_text (tk.created (s.calls ++ [Call.lv_button_create parent,
               Call.lv_label_create (tk.created (s.calls ++ [Call.lv_button_create parent]))]))
               (string_view.ofLiteral "").data] }) := by
  have h : (Button.create tk parent).run s
      = ({ obj_ := tk.created (s.calls ++ [Call.lv_button_create parent]),
           thelabel := { obj_ := tk.created ((s.calls ++ [Call.lv_button_create parent]) ++
             [Call.lv_label_create (tk.created (s.calls ++ [Call.lv_button_create parent]))]) } },
         { s with calls := ((((s.calls ++
            [Call.lv_button_create parent]) ++
            [Call.lv_label_create (tk.created (s.calls ++ [Call.lv_button_create parent]))]) ++
            [Call.lv_obj_set_width (tk.created ((s.calls ++ [Call.lv_button_create parent]) ++
             [Call.lv_label_create (tk.created (s.calls ++ [Call.lv_button_create parent]))]))
               tk.LV_SIZE_CONTENT]) ++
            [Call.lv_obj_set_height (tk.created ((s.calls ++ [Call.lv_button_create parent]) ++
             [Call.lv_label_create (tk.created (s.calls ++ [Call.lv_button_create parent]))]))
               tk.LV_SIZE_CONTENT]) ++
            [Call.lv_label_set_text (tk.created ((s.calls ++ [Call.lv_button_create parent]) ++
             [Call.lv_label_create (tk.created (s.calls ++ [Call.lv_button_create parent]))]))
               (string_view.ofLiteral "").data] }) := rfl
  rw [h]
  simp

theorem Bar_create_run {σ : Type} (tk : Toolkit) (parent : lv_obj_ptr) (s : World σ) :
    (Bar.create tk parent).run s
      = ({ obj_ := tk.created (s.calls ++ [Call.lv_bar_create parent]),
           thelabel := { obj_ := tk.created (s.calls ++ [Call.lv_bar_create parent,
             Call.lv_label_create (tk.created (s.calls ++ [Call.lv_bar_create parent]))]) } },
         { s with calls := s.calls ++
            [Call.lv_bar_create parent,
             Call.lv_label_create (tk.created (s.calls ++ [Call.lv_bar_create parent])),
             Call.lv_obj_set_width (tk.created (s.calls ++ [Call.lv_bar_create parent,
               Call.lv_label_create (tk.created (s.calls ++ [Call.lv_bar_create parent]))]))
               tk.LV_SIZE_CONTENT,
             Call.lv_obj_set_height (tk.created (s.calls ++ [Call.lv_bar_create parent,
               Call.lv_label_create (tk.created (s.calls ++ [Call.lv_bar_create parent]))]))
               tk.LV_SIZE_CONTENT,
             Call.lv_label_set_text (tk.created (s.calls ++ [Call.lv_bar_create parent,
               Call.lv_label_create (tk.created (s.calls ++ [Call.lv_bar_create parent]))]))
               (string_view.ofLiteral "").data,
             Call.lv_obj_set_align (tk.created (s.calls ++ [Call.lv_bar_create parent,
               Call.lv_label_create (tk.created (s.calls ++ [Call.lv_bar_create parent]))]))
               tk.LV_ALIGN_CENTER] }) := by
  have h : (Bar.create tk parent).run s
      = ({ obj_ := tk.created (s.calls ++ [Call.lv_bar_create parent]),
           thelabel := { obj_ := tk.created ((s.calls ++ [Call.lv_bar_create parent]) ++
             [Call.lv_label_create (tk.created (s.calls ++ [Call.lv_bar_create parent]))]) } },
         { s with calls := (((((s.calls ++
            [Call.lv_bar_create parent]) ++
            [Call.lv_label_create (tk.created (s.calls ++ [Call.lv_bar_create parent]))]) ++
            [Call.lv_obj_set_width (tk.created ((s.calls ++ [Call.lv_bar_create parent]) ++
             [Call.lv_label_create (tk.created (s.calls ++ [Call.lv_bar_create parent]))]))
               tk.LV_SIZE_CONTENT]) ++
            [Call.lv_obj_set_height (tk.created ((s.calls ++ [Call.lv_bar_create parent]) ++
             [Call.lv_label_create (tk.created (s.calls ++ [Call.lv_bar_create parent]))]))
               tk.LV_SIZE_CONTENT]) ++
            [Call.lv_label_set_text (tk.created ((s.calls ++ [Call.lv_bar_create parent]) ++
             [Call.lv_label_create (tk.created (s.calls ++ [Call.lv_bar_create parent]))]))
               (string_view.ofLiteral "").data]) ++
            [Call.lv_obj_set_align (tk.created ((s.calls ++ [Call.lv_bar_create parent]) ++
             [Call.lv_label_create (tk.created (s.calls ++ [Call.lv_bar_create parent]))]))
               tk.LV_ALIGN_CENTER] }) := rfl
  rw [h]
  simp

theorem Button_createText_run {σ : Type} (tk : Toolkit) (parent : lv_obj_ptr) (text : string_view)
    (s : World σ) :
    (Button.createText tk parent text).run s
      = (((Button.create tk parent).run s).1,
         { ((Button.create tk parent).run s).2 with
            calls := ((Button.create tk parent).run s).2.calls ++
              [Call.lv_label_set_text ((Button.create tk parent).run s).1.thelabel.obj_ text.data] }) :=
  rfl

theorem Object_create_run {σ : Type} (tk : Toolkit) (parent : lv_obj_ptr) (s : World σ) :
    (Object.create tk parent).run s
      = ({ obj_ := tk.created (s.calls ++ [Call.lv_obj_create parent]) },
         { s with calls := s.calls ++ [Call.lv_obj_create parent] }) := rfl

theorem Label_create_run {σ : Type} (tk : Toolkit) (parent : lv_obj_ptr) (s : World σ) :
    (Label.create tk parent).run s
      = ({ obj_ := tk.created (s.calls ++ [Call.lv_label_create parent]) },
         { s with calls := s.calls ++ [Call.lv_label_create parent] }) := rfl

theorem Label_createText_run {σ : Type} (tk : Toolkit) (parent : lv_obj_ptr) (text : string_view)
    (s : World σ) :
    (Label.createText tk parent text).run s
      = ({ obj_ := tk.created (s.calls ++ [Call.lv_label_create parent]) },
         { s with calls := s.calls ++ [Call.lv_label_create parent,
            Call.lv_label_set_text (tk.created (s.calls ++ [Call.lv_label_create parent])) text.data] }) := by
  have h : (Label.createText tk parent text).run s
      = ({ obj_ := tk.created (s.calls ++ [Call.lv_label_create parent]) },
         { s with calls := (s.calls ++ [Call.lv_label_create parent]) ++
            [Call.lv_label_set_text (tk.created (s.calls ++ [Call.lv_label_create parent])) text.data] }) :=
    rfl
  rw [h]
  simp

theorem Dropdown_create_run {σ : Type} (tk : Toolkit) (parent : lv_obj_ptr) (s : World σ) :
    (Dropdown.create tk parent).run s
      = ({ obj_ := tk.created (s.calls ++ [Call.lv_dropdown_create parent]) },
         { s with calls := s.calls ++ [Call.lv_dropdown_create parent] }) := rfl

theorem Dropdown_createOptions_run {σ : Type} (tk : Toolkit) (parent : lv_obj_ptr)
    (options : List String) (s : World σ) :
    (Dropdown.createOptions tk parent options).run s
      = ({ obj_ := tk.created (s.calls ++ [Call.lv_dropdown_create parent]) },
         { s with calls := s.calls ++ [Call.lv_dropdown_create parent,
            Call.lv_dropdown_set_options (tk.created (s.calls ++ [Call.lv_dropdown_create parent]))
              (c_str (Dropdown.optionsBuffer options))] }) := by
  have h : (Dropdown.createOptions tk parent options).run s
      = ({ obj_ := tk.created (s.calls ++ [Call.lv_dropdown_create parent]) },
         { s with calls := (s.calls ++ [Call.lv_dropdown_create parent]) ++
            [Call.lv_dropdown_set_options (tk.created (s.calls ++ [Call.lv_dropdown_create parent]))
              (c_str (Dropdown.optionsBuffer options))] }) := rfl
  rw [h]
  simp

theorem deref_fresh {σ : Type} (s : World σ) : s.deref (s.heap.length + 1) = none := by
  simp [World.deref]

theorem deref_new {σ : Type} (heap : List (UiEventDispatchBase σ)) (d : UiEventDispatchBase σ)
    (calls : List Call) (u : σ) :
    World.deref { calls := calls, heap := heap ++ [d], user := u } (heap.length + 1) = some d := by
  simp [World.deref]

theorem AddCallback0_run {σ Child : Type} [BaseWrapper Child] (self : Child) (cb : σ → σ)
    (filter : lv_event_code_t) (s : World σ) :
    (BaseWrapper.AddCallback0 self cb filter).run s
      = (self,
         { calls := s.calls ++ [Call.lv_obj_add_event_cb (BaseWrapper.obj_ self)
              lv_event_cb_t.EventCallback filter (s.heap.length + 1)],
           heap := s.heap ++ [UiEventDispatch self (fun (_ : Child) (_ : lv_event_t) => cb)],
           user := s.user }) := rfl

theorem AddCallback_run {σ Child : Type} [BaseWrapper Child] (self : Child)
    (cb : ui_event_callback σ Child) (filter : lv_event_code_t) (s : World σ) :
    (BaseWrapper.AddCallback self cb filter).run s
      = (self,
         { calls := s.calls ++ [Call.lv_obj_add_event_cb (BaseWrapper.obj_ self)
              lv_event_cb_t.EventCallback filter (s.heap.length + 1)],
           heap := s.heap ++ [UiEventDispatch self cb],
           user := s.user }) := rfl

theorem createCalls_singleton_of_not_create (c : Call) (h : c.isCreate = false) :
    createCalls [c] = [] := by
  simp [createCalls, h]

theorem BaseOp_invoke_keeps_self {σ Child : Type} [BaseWrapper Child] (tk : Toolkit)
    (self : Child) (op : BaseOp σ Child) (s : World σ) (h : op.isSetObject = false) :
    ((op.invoke tk self).run s).1 = self := by
  cases op with
  | setter m => simp only [BaseOp.invoke, Setter_invoke_run]
  | SetObject object => simp [BaseOp.isSetObject] at h
  | AddCallback cb filter => rfl
  | AddCallback0 cb filter => rfl

theorem BaseOp_invoke_one_call {σ Child : Type} [BaseWrapper Child] (tk : Toolkit)
    (self : Child) (op : BaseOp σ Child) (s : World σ) (h : op.isSetObject = false) :
    ∃ c : Call, ((op.invoke tk self).run s).2.calls = s.calls ++ [c] ∧ c.isCreate = false := by
  cases op with
  | setter m =>
    refine ⟨m.nativeCall tk (BaseWrapper.obj_ self), ?_, ?_⟩
    · simp only [BaseOp.invoke, Setter_invoke_run]
    · cases m <;> rfl
  | SetObject object => simp [BaseOp.isSetObject] at h
  | AddCallback cb filter => exact ⟨_, rfl, rfl⟩
  | AddCallback0 cb filter => exact ⟨_, rfl, rfl⟩

theorem BaseOp_invoke_no_create {σ Child : Type} [BaseWrapper Child] (tk : Toolkit)
    (self : Child) (op : BaseOp σ Child) (s : World σ) :
    ∃ new : List Call, ((op.invoke tk self).run s).2.calls = s.calls ++ new
      ∧ createCalls new = [] := by
  cases h : op.isSetObject with
  | false =>
    obtain ⟨c, hc, hcreate⟩ := BaseOp_invoke_one_call tk self op s h
    exact ⟨[c], hc, createCalls_singleton_of_not_create c hcreate⟩
  | true =>
    cases op with
    | SetObject object => exact ⟨[], by simp [BaseOp.invoke, BaseWrapper.SetObject, StateT.run, pure, StateT.pure], rfl⟩
    | setter m => simp [BaseOp.isSetObject] at h
    | AddCallback cb filter => simp [BaseOp.isSetObject] at h
    | AddCallback0 cb filter => simp [BaseOp.isSetObject] at h

theorem LabelOp_invoke_keeps_obj {σ : Type} (tk : Toolkit) (self : Label) (op : LabelOp σ)
    (s : World σ) (h : op.isSetObject = false) :
    BaseWrapper.GetObj ((op.invoke tk self).run s).1 = BaseWrapper.GetObj self := by
  cases op with
  | base op => exact congrArg BaseWrapper.GetObj (BaseOp_invoke_keeps_self tk self op s h)
  | SetText text => rfl

theorem LabelOp_invoke_no_create {σ : Type} (tk : Toolkit) (self : Label) (op : LabelOp σ)
    (s : World σ) :
    ∃ new : List Call, ((op.invoke tk self).run s).2.calls = s.calls ++ new
      ∧ createCalls new = [] := by
  cases op with
  | base op => exact BaseOp_invoke_no_create tk self op s
  | SetText text => exact ⟨[_], rfl, rfl⟩

theorem ButtonOp_invoke_keeps_obj {σ : Type} (tk : Toolkit) (self : Button) (op : ButtonOp σ)
    (s : World σ) (h : op.isSetObject = false) :
    BaseWrapper.GetObj ((op.invoke tk self).run s).1 = BaseWrapper.GetObj self := by
  cases op with
  | base op => exact congrArg BaseWrapper.GetObj (BaseOp_invoke_keeps_self tk self op s h)
  | SetText text => rfl
  | onLabel op => rfl

theorem ButtonOp_invoke_no_create {σ : Type} (tk : Toolkit) (self : Button) (op : ButtonOp σ)
    (s : World σ) :
    ∃ new : List Call, ((op.invoke tk self).run s).2.calls = s.calls ++ new
      ∧ createCalls new = [] := by
  cases op with
  | base op => exact BaseOp_invoke_no_create tk self op s
  | SetText text => exact ⟨[_], rfl, rfl⟩
  | onLabel op => exact LabelOp_invoke_no_create tk self.thelabel op s

theorem BarOp_invoke_keeps_obj {σ : Type} (tk : Toolkit) (self : Bar) (op : BarOp σ)
    (s : World σ) (h : op.isSetObject = false) :
    BaseWrapper.GetObj ((op.invoke tk self).run s).1 = BaseWrapper.GetObj self := by
  cases op with
  | base op => exact congrArg BaseWrapper.GetObj (BaseOp_invoke_keeps_self tk self op s h)
  | SetValue val => rfl
  | SetLabel text => rfl
  | onLabel op => rfl

theorem BarOp_invoke_no_create {σ : Type} (tk : Toolkit) (self : Bar) (op : BarOp σ)
    (s : World σ) :
    ∃ new : List Call, ((op.invoke tk self).run s).2.calls = s.calls ++ new
      ∧ createCalls new = [] := by
  cases op with
  | base op => exact BaseOp_invoke_no_create tk self op s
  | SetValue val => exact ⟨[_], rfl, rfl⟩
  | SetLabel text => exact ⟨[_], rfl, rfl⟩
  | onLabel op => exact LabelOp_invoke_no_create tk self.thelabel op s

theorem DropdownOp_invoke_keeps_obj {σ : Type} (tk : Toolkit) (self : Dropdown)
    (op : DropdownOp σ) (s : World σ) (h : op.isSetObject = false) :
    BaseWrapper.GetObj ((op.invoke tk self).run s).1 = BaseWrapper.GetObj self := by
  cases op with
  | base op => exact congrArg BaseWrapper.GetObj (BaseOp_invoke_keeps_self tk self op s h)
  | SetOptions options => rfl
  | SetSelected sel => rfl
  | GetSelected => rfl

theorem DropdownOp_invoke_no_create {σ : Type} (tk : Toolkit) (self : Dropdown)
    (op : DropdownOp σ) (s : World σ) :
    ∃ new : List Call, ((op.invoke tk self).run s).2.calls = s.calls ++ new
      ∧ createCalls new = [] := by
  cases op with
  | base op => exact BaseOp_invoke_no_create tk self op s
  | SetOptions options => exact ⟨[_], rfl, rfl⟩
  | SetSelected sel => exact ⟨[_], rfl, rfl⟩
  | GetSelected => exact ⟨[_], rfl, rfl⟩

theorem chain_keeps {σ Child Method : Type} (invoke : Child → Method → Lv σ Child)
    (bad : Method → Bool) (f : Child → lv_obj_ptr)
    (step : ∀ (self : Child) (m : Method) (s : World σ), bad m = false →
      f ((invoke self m).run s).1 = f self)
    (ms : List Method) (self : Child) (s : World σ) (h : ∀ m ∈ ms, bad m = false) :
    f ((chain invoke self ms).run s).1 = f self := by
  induction ms generalizing self s with
  | nil => rfl
  | cons m ms ih =>
    rw [chain_cons_run, ih _ _ (fun m' hm' => h m' (List.mem_cons_of_mem m hm'))]
    exact step self m s (h m (List.mem_cons_self m ms))

theorem chain_no_create {σ Child Method : Type} (invoke : Child → Method → Lv σ Child)
    (step : ∀ (self : Child) (m : Method) (s : World σ),
      ∃ new : List Call, ((invoke self m).run s).2.calls = s.calls ++ new
        ∧ createCalls new = [])
    (ms : List Method) (self : Child) (s : World σ) :
    createCalls (added s.calls ((chain invoke self ms).run s).2.calls) = [] := by
  have h : ∀ (ms : List Method) (self : Child) (s : World σ),
      ∃ new : List Call, ((chain invoke self ms).run s).2.calls = s.calls ++ new
        ∧ createCalls new = [] := by
    intro ms
    induction ms with
    | nil => exact fun self s => ⟨[], by simp [chain, StateT.run, pure, StateT.pure], rfl⟩
    | cons m ms ih =>
      intro self s
      obtain ⟨new1, h1, hc1⟩ := step self m s
      obtain ⟨new2, h2, hc2⟩ := ih ((invoke self m).run s).1 ((invoke self m).run s).2
      refine ⟨new1 ++ new2, ?_, ?_⟩
      · rw [chain_cons_run, h2, h1, List.append_assoc]
      · simp only [createCalls, List.filter_append] at hc1 hc2 ⊢
        rw [hc1, hc2]
        rfl
  obtain ⟨new, hnew, hc⟩ := h ms self s
  rw [hnew, added_append, hc]

theorem beforeNul_append_nul (l : List Char) : beforeNul (l ++ ['\x00']) = beforeNul l := by
  induction l with
  | nil => rfl
  | cons a l ih =>
    by_cases ha : a = '\x00'
    · simp [beforeNul, ha]
    · simp [beforeNul, ha, ih]

theorem beforeNul_of_not_mem (l : List Char) (h : '\x00' ∉ l) : beforeNul l = l := by
  induction l with
  | nil => rfl
  | cons a l ih =>
    have ha : a ≠ '\x00' := fun e => h (e ▸ List.mem_cons_self a l)
    have hl : '\x00' ∉ l := fun m => h (List.mem_cons_of_mem a m)
    simp [beforeNul, ha, ih hl]

theorem c_string_c_str (s : String) :
    c_string (c_str s) = some (String.mk (beforeNul s.toList)) := by
  simp [c_string, c_str, beforeNul_append_nul]

theorem c_string_c_str_of_no_nul (s : String) (h : '\x00' ∉ s.toList) :
    c_string (c_str s) = some s := by
  rw [c_string_c_str, beforeNul_of_not_mem s.toList h]
  rfl

theorem optionsBuffer_no_nul (options : List String)
    (h : ∀ el ∈ options, '\x00' ∉ el.toList) :
    '\x00' ∉ (Dropdown.optionsBuffer options).toList := by
  have key : ∀ (l : List String) (acc : String), '\x00' ∉ acc.toList →
      (∀ el ∈ l, '\x00' ∉ el.toList) →
      '\x00' ∉ (l.foldl (fun out el => out ++ (el ++ "\n")) acc).toList := by
    intro l
    induction l with
    | nil => exact fun acc hacc _ => hacc
    | cons a rest ih =>
      intro acc hacc hl
      rw [List.foldl_cons]
      apply ih
      · have ha := hl a (List.mem_cons_self a rest)
        simp only [String.toList, String.data_append, List.mem_append, not_or] at hacc ha ⊢
        exact ⟨hacc, ha, by decide⟩
      · exact fun el hel => hl el (List.mem_cons_of_mem a hel)
  exact key options "" (by decide) h

theorem Button_createText_label_texts {σ : Type} (tk : Toolkit) (p : lv_obj_ptr)
    (t : string_view) (s : World σ) :
    labelTexts ((Button.createText tk p t).run s).1.thelabel.obj_
        (added s.calls ((Button.createText tk p t).run s).2.calls)
      = [some "", c_string t.data] := by
  rw [Button_createText_run, Button_create_run]
  simp [added, labelTexts]
  decide

/-! ## The claims -/

/-- C1, as stated, fails for an option with an embedded NUL: for
`{"A\0B","C"}` the buffer is `"A\0B\nC\n"`, `SetOptions` forwards
`out.c_str()`, and the string the toolkit reads there is `"A"`, not the
concatenation of each option followed by a newline. -/
theorem SetOptions_forwards_C_string_cut_at_NUL :
    ((Dropdown.SetOptions { obj_ := 3 } ["A\x00B", "C"]).run start).2.calls
        = [Call.lv_dropdown_set_options 3 (c_str "A\x00B\nC\n")]
      ∧ optionBuffers 3 ((Dropdown.SetOptions { obj_ := 3 } ["A\x00B", "C"]).run start).2.calls
        = [some "A"]
      ∧ optionBuffers 3 ((Dropdown.SetOptions { obj_ := 3 } ["A\x00B", "C"]).run start).2.calls
        ≠ [some (newlineTerminated ["A\x00B", "C"])] := by
  refine ⟨by decide, by decide, by decide⟩

/-- C1, amended: `Dropdown::SetOptions` makes exactly one toolkit call,
`lv_dropdown_set_options` on the dropdown's handle with the pointer
`out.c_str()` of the concatenation in list order of each option followed by
one newline, and returns the same `Dropdown` unchanged; when no option
contains a NUL character the string the toolkit reads there is that whole
concatenation, so `{"A","B","C"}` forwards `"A\nB\nC\n"` and the empty list
forwards the empty string. -/
theorem SetOptions_forwards_each_option_newline_terminated {σ : Type} (self : Dropdown)
    (options : List String) (s : World σ) :
    (Dropdown.SetOptions self options).run s
        = (self, { s with calls := s.calls ++
            [Call.lv_dropdown_set_options self.obj_ (c_str (newlineTerminated options))] })
      ∧ ((∀ el ∈ options, '\x00' ∉ el.toList) →
          optionBuffers self.obj_ (added s.calls ((Dropdown.SetOptions self options).run s).2.calls)
            = [some (newlineTerminated options)])
      ∧ c_string (c_str (newlineTerminated ["A", "B", "C"])) = some "A\nB\nC\n"
      ∧ c_string (c_str (newlineTerminated [])) = some "" := by
  have hrun : (Dropdown.SetOptions self options).run s
        = (self, { s with calls := s.calls ++
            [Call.lv_dropdown_set_options self.obj_ (c_str (newlineTerminated options))] }) := by
    rw [← optionsBuffer_eq_join]
    rfl
  refine ⟨hrun, ?_, by decide, by decide⟩
  intro hnul
  rw [hrun, added_append]
  have h := c_string_c_str_of_no_nul (Dropdown.optionsBuffer options)
    (optionsBuffer_no_nul options hnul)
  rw [optionsBuffer_eq_join] at h
  simp [optionBuffers, h]

/-- Witness for C1 amended: the options `{"A","B","C"}` on handle `3`. -/
theorem SetOptions_forwards_each_option_newline_terminated_witness :
    (∀ el ∈ ["A", "B", "C"], '\x00' ∉ el.toList)
      ∧ optionBuffers 3 (added start.calls
          ((Dropdown.SetOptions { obj_ := 3 } ["A", "B", "C"]).run start).2.calls)
        = [some (newlineTerminated ["A", "B", "C"])]
      ∧ newlineTerminated ["A", "B", "C"] = "A\nB\nC\n" :=
  ⟨by decide,
   (SetOptions_forwards_each_option_newline_terminated { obj_ := 3 } ["A", "B", "C"] start).2.1
     (by decide),
   by decide⟩

/-- C2, as stated, fails: for `{"A","B","C"}` the buffer `SetOptions` forwards
is `"A\nB\nC\n"`, which is not the separator-joined `"A\nB\nC"`, and read as a
newline-delimited buffer it denotes four options, the last one empty; and for
`{"A\0B","C"}` the toolkit reads the buffer `"A"`, which denotes one option. -/
theorem SetOptions_not_newline_separated :
    optionBuffers 3 ((Dropdown.SetOptions { obj_ := 3 } ["A", "B", "C"]).run start).2.calls
        = [some "A\nB\nC\n"]
      ∧ optionBuffers 3 ((Dropdown.SetOptions { obj_ := 3 } ["A", "B", "C"]).run start).2.calls
        ≠ [some (newlineSeparated ["A", "B", "C"])]
      ∧ delimitedOptions "A\nB\nC\n" = [['A'], ['B'], ['C'], []]
      ∧ (optionBuffers 3
          ((Dropdown.SetOptions { obj_ := 3 } ["A\x00B", "C"]).run start).2.calls).map
            (Option.map delimitedOptions)
        = [some [['A']]] := by
  refine ⟨by decide, by decide, by decide, by decide⟩

/-- C2, amended: the buffer `out` whose `c_str()` `SetOptions` passes to
`lv_dropdown_set_options` holds each option followed by one newline: for a
non-empty list it is the options joined with newline separators plus one
newline after the last, for the empty list it is empty.  When no option
contains a NUL character the toolkit reads that whole buffer, and when
moreover no option contains a newline the newline-delimited buffer it reads
denotes the given options, in order, followed by one empty option. -/
theorem SetOptions_buffer_newline_terminated {σ : Type} (self : Dropdown)
    (options : List String) (s : World σ) :
    (Dropdown.SetOptions self options).run s
        = (self, { s with calls := s.calls ++
            [Call.lv_dropdown_set_options self.obj_ (c_str (Dropdown.optionsBuffer options))] })
      ∧ Dropdown.optionsBuffer options
        = (if options = [] then "" else newlineSeparated options ++ "\n")
      ∧ ((∀ el ∈ options, '\x00' ∉ el.toList) →
          optionBuffers self.obj_ (added s.calls ((Dropdown.SetOptions self options).run s).2.calls)
            = [some (Dropdown.optionsBuffer options)])
      ∧ ((∀ el ∈ options, '\x00' ∉ el.toList) → (∀ el ∈ options, '\n' ∉ el.toList) →
          (optionBuffers self.obj_
              (added s.calls ((Dropdown.SetOptions self options).run s).2.calls)).map
                (Option.map delimitedOptions)
            = [some (options.map String.toList ++ [[]])]) := by
  have hrun : (Dropdown.SetOptions self options).run s
        = (self, { s with calls := s.calls ++
            [Call.lv_dropdown_set_options self.obj_ (c_str (Dropdown.optionsBuffer options))] }) :=
    rfl
  have hread : (∀ el ∈ options, '\x00' ∉ el.toList) →
      optionBuffers self.obj_ (added s.calls ((Dropdown.SetOptions self options).run s).2.calls)
        = [some (Dropdown.optionsBuffer options)] := by
    intro hnul
    rw [hrun, added_append]
    simp [optionBuffers, c_string_c_str_of_no_nul (Dropdown.optionsBuffer options)
      (optionsBuffer_no_nul options hnul)]
  refine ⟨hrun, ?_, hread, ?_⟩
  · cases options with
    | nil => rfl
    | cons a rest =>
      rw [if_neg (List.cons_ne_nil a rest)]
      unfold newlineSeparated String.intercalate
      rw [intercalate_go_foldl]
      simp [Dropdown.optionsBuffer]
  · intro hnul hnl
    rw [hread hnul]
    have hsplit : delimitedOptions (Dropdown.optionsBuffer options)
        = options.map String.toList ++ [[]] := by
      unfold delimitedOptions
      rw [optionsBuffer_data]
      apply List.splitOn_intercalate
      · intro l hl
        rcases List.mem_append.mp hl with hl | hl
        · obtain ⟨el, hel, rfl⟩ := List.mem_map.mp hl
          exact hnl el hel
        · simp at hl
          subst hl
          simp
      · simp
    simp [hsplit]

/-- Witness for C2 amended: the options `{"A","B"}` on handle `3`. -/
theorem SetOptions_buffer_newline_terminated_witness :
    (∀ el ∈ ["A", "B"], '\x00' ∉ el.toList)
      ∧ (∀ el ∈ ["A", "B"], '\n' ∉ el.toList)
      ∧ Dropdown.optionsBuffer ["A", "B"] = "A\nB\n"
      ∧ optionBuffers 3 (added start.calls
          ((Dropdown.SetOptions { obj_ := 3 } ["A", "B"]).run start).2.calls)
        = [some (Dropdown.optionsBuffer ["A", "B"])]
      ∧ (optionBuffers 3 (added start.calls
          ((Dropdown.SetOptions { obj_ := 3 } ["A", "B"]).run start).2.calls)).map
            (Option.map delimitedOptions)
        = [some [['A'], ['B'], []]] :=
  ⟨by decide, by decide,
   (SetOptions_buffer_newline_terminated { obj_ := 3 } ["A", "B"] start).2.1,
   (SetOptions_buffer_newline_terminated { obj_ := 3 } ["A", "B"] start).2.2.1 (by decide),
   (SetOptions_buffer_newline_terminated { obj_ := 3 } ["A", "B"] start).2.2.2 (by decide)
     (by decide)⟩

/-- C3: every chain of `BaseWrapper` setters on a wrapper returns that wrapper,
handle unchanged, after each setter and at the end, and the toolkit calls it
adds are, in the chain's order, the corresponding native setter calls on the
wrapper's handle with the arguments given; `obj.SetX(1).SetY(2)` adds
`lv_obj_set_x(h, 1)` then `lv_obj_set_y(h, 2)` and nothing else. -/
theorem chained_setters_return_self_and_forward_in_order {σ Child : Type} [BaseWrapper Child]
    (tk : Toolkit) (self : Child) (ms : List Setter) (s : World σ) :
    (∀ (m : Setter) (s1 : World σ), (m.invoke tk self).run s1
        = (self, { s1 with calls := s1.calls ++ [m.nativeCall tk (BaseWrapper.obj_ self)] }))
      ∧ (chain (Setter.invoke tk) self ms).run s
        = (self, { s with
            calls := s.calls ++ ms.map (Setter.nativeCall tk (BaseWrapper.obj_ self)) })
      ∧ (chain (Setter.invoke tk) self [Setter.SetX 1, Setter.SetY 2]).run s
        = (self, { s with calls := s.calls ++
            [Call.lv_obj_set_x (BaseWrapper.obj_ self) 1,
             Call.lv_obj_set_y (BaseWrapper.obj_ self) 2] }) :=
  ⟨fun m s1 => Setter_invoke_run tk self m s1, chain_setters_run tk self ms s,
    chain_setters_run tk self [Setter.SetX 1, Setter.SetY 2] s⟩

/-- C7: `Bar::SetValue(v)` makes exactly one toolkit call, `lv_bar_set_value`
on the bar's handle with value `v` and `LV_ANIM_OFF`, hence none through the
overlay label, and returns the same `Bar`, its handle and its nested label
unchanged. -/
theorem Bar_SetValue_forwards_value_anim_off {σ : Type} (tk : Toolkit) (self : Bar) (v : Int)
    (s : World σ) :
    (Bar.SetValue tk self v).run s
      = (self, { s with calls := s.calls ++ [Call.lv_bar_set_value self.obj_ v tk.LV_ANIM_OFF] }) :=
  rfl

/-- C4, as stated, fails for the composite wrappers: constructing
`Button(7)` makes two create calls, `lv_button_create(7)` and then
`lv_label_create` for the nested label, not exactly one; so does `Bar(7)`. -/
theorem Button_ctor_makes_two_create_calls :
    createCalls ((Button.create sampleToolkit 7).run start).2.calls
        = [Call.lv_button_create 7, Call.lv_label_create 1]
      ∧ (createCalls ((Button.create sampleToolkit 7).run start).2.calls).length ≠ 1
      ∧ createCalls ((Bar.create sampleToolkit 7).run start).2.calls
        = [Call.lv_bar_create 7, Call.lv_label_create 1] := by
  refine ⟨by decide, by decide, by decide⟩

/-- C4, amended: provided the toolkit's create calls return non-null handles,
every constructor taking a parent `p` leaves the wrapper holding the non-null
handle returned by its widget's create call, which is the constructor's first
create call and has parent `p`.  `Object`, `Label` and `Dropdown` make exactly
that one create call; `Button` and `Bar` make exactly one more,
`lv_label_create` for the nested label, whose parent is the new widget's
handle and whose non-null result the nested label holds, so that exactly one
of their create calls has parent `p` when the new handle differs from `p`. -/
theorem ctor_holds_created_handle {σ : Type} (tk : Toolkit) (p : lv_obj_ptr) (text : string_view)
    (options : List String) (s : World σ)
    (hnn : ∀ (l : List Call) (c : Call), c.isCreate = true → tk.created (l ++ [c]) ≠ nullptr) :
    (((Object.create tk p).run s).1.obj_ ≠ nullptr
      ∧ ((Object.create tk p).run s).1.obj_ = tk.created (s.calls ++ [Call.lv_obj_create p])
      ∧ createCalls (added s.calls ((Object.create tk p).run s).2.calls)
        = [Call.lv_obj_create p])
    ∧ (((Label.create tk p).run s).1.obj_ ≠ nullptr
      ∧ ((Label.create tk p).run s).1.obj_ = tk.created (s.calls ++ [Call.lv_label_create p])
      ∧ createCalls (added s.calls ((Label.create tk p).run s).2.calls)
        = [Call.lv_label_create p])
    ∧ (((Label.createText tk p text).run s).1.obj_ ≠ nullptr
      ∧ ((Label.createText tk p text).run s).1.obj_
        = tk.created (s.calls ++ [Call.lv_label_create p])
      ∧ createCalls (added s.calls ((Label.createText tk p text).run s).2.calls)
        = [Call.lv_label_create p])
    ∧ (((Dropdown.create tk p).run s).1.obj_ ≠ nullptr
      ∧ ((Dropdown.create tk p).run s).1.obj_
        = tk.created (s.calls ++ [Call.lv_dropdown_create p])
      ∧ createCalls (added s.calls ((Dropdown.create tk p).run s).2.calls)
        = [Call.lv_dropdown_create p])
    ∧ (((Dropdown.createOptions tk p options).run s).1.obj_ ≠ nullptr
      ∧ ((Dropdown.createOptions tk p options).run s).1.obj_
        = tk.created (s.calls ++ [Call.lv_dropdown_create p])
      ∧ createCalls (added s.calls ((Dropdown.createOptions tk p options).run s).2.calls)
        = [Call.lv_dropdown_create p])
    ∧ (((Button.create tk p).run s).1.obj_ ≠ nullptr
      ∧ ((Button.create tk p).run s).1.obj_ = tk.created (s.calls ++ [Call.lv_button_create p])
      ∧ ((Button.create tk p).run s).1.thelabel.obj_ ≠ nullptr
      ∧ createCalls (added s.calls ((Button.create tk p).run s).2.calls)
        = [Call.lv_button_create p, Call.lv_label_create ((Button.create tk p).run s).1.obj_]
      ∧ (((Button.create tk p).run s).1.obj_ ≠ p →
          createCallsWithParent p (added s.calls ((Button.create tk p).run s).2.calls)
            = [Call.lv_button_create p]))
    ∧ (((Button.createText tk p text).run s).1.obj_ ≠ nullptr
      ∧ ((Button.createText tk p text).run s).1.obj_
        = tk.created (s.calls ++ [Call.lv_button_create p])
      ∧ ((Button.createText tk p text).run s).1.thelabel.obj_ ≠ nullptr
      ∧ createCalls (added s.calls ((Button.createText tk p text).run s).2.calls)
        = [Call.lv_button_create p,
           Call.lv_label_create ((Button.createText tk p text).run s).1.obj_]
      ∧ (((Button.createText tk p text).run s).1.obj_ ≠ p →
          createCallsWithParent p
              (added s.calls ((Button.createText tk p text).run s).2.calls)
            = [Call.lv_button_create p]))
    ∧ (((Bar.create tk p).run s).1.obj_ ≠ nullptr
      ∧ ((Bar.create tk p).run s).1.obj_ = tk.created (s.calls ++ [Call.lv_bar_create p])
      ∧ ((Bar.create tk p).run s).1.thelabel.obj_ ≠ nullptr
      ∧ createCalls (added s.calls ((Bar.create tk p).run s).2.calls)
        = [Call.lv_bar_create p, Call.lv_label_create ((Bar.create tk p).run s).1.obj_]
      ∧ (((Bar.create tk p).run s).1.obj_ ≠ p →
          createCallsWithParent p (added s.calls ((Bar.create tk p).run s).2.calls)
            = [Call.lv_bar_create p])) := by
  have hlabel : ∀ c : Call, c.isCreate = true →
      tk.created (s.calls ++ [c, Call.lv_label_create (tk.created (s.calls ++ [c]))])
        ≠ nullptr := by
    intro c _
    simpa using hnn (s.calls ++ [c]) (Call.lv_label_create (tk.created (s.calls ++ [c]))) rfl
  refine ⟨?_, ?_, ?_, ?_, ?_, ?_, ?_, ?_⟩
  · rw [Object_create_run]
    exact ⟨hnn _ _ rfl, rfl, by simp [added_append, createCalls, Call.isCreate]⟩
  · rw [Label_create_run]
    exact ⟨hnn _ _ rfl, rfl, by simp [added_append, createCalls, Call.isCreate]⟩
  · rw [Label_createText_run]
    exact ⟨hnn _ _ rfl, rfl, by simp [added_append, createCalls, Call.isCreate]⟩
  · rw [Dropdown_create_run]
    exact ⟨hnn _ _ rfl, rfl, by simp [added_append, createCalls, Call.isCreate]⟩
  · rw [Dropdown_createOptions_run]
    exact ⟨hnn _ _ rfl, rfl, by simp [added_append, createCalls, Call.isCreate]⟩
  · rw [Button_create_run]
    refine ⟨hnn _ _ rfl, rfl, hlabel _ rfl,
      by simp [added_append, createCalls, Call.isCreate], ?_⟩
    intro hne
    simp [added_append, createCallsWithParent, Call.parent?, hne]
  · rw [Button_createText_run, Button_create_run]
    refine ⟨hnn _ _ rfl, rfl, hlabel _ rfl, by simp [added, createCalls, Call.isCreate], ?_⟩
    intro hne
    simp [added, createCallsWithParent, Call.parent?, hne]
  · rw [Bar_create_run]
    refine ⟨hnn _ _ rfl, rfl, hlabel _ rfl,
      by simp [added_append, createCalls, Call.isCreate], ?_⟩
    intro hne
    simp [added_append, createCallsWithParent, Call.parent?, hne]

/-- Witness for C4 amended: `Object(7)` and `Button(7)` under a toolkit that
numbers its widgets from `1`. -/
theorem ctor_holds_created_handle_witness :
    (∀ (l : List Call) (c : Call), c.isCreate = true →
        sampleToolkit.created (l ++ [c]) ≠ nullptr)
      ∧ ((Object.create sampleToolkit 7).run start).1.obj_ ≠ nullptr
      ∧ createCalls (added start.calls ((Object.create sampleToolkit 7).run start).2.calls)
        = [Call.lv_obj_create 7]
      ∧ ((Button.create sampleToolkit 7).run start).1.obj_ ≠ nullptr
      ∧ createCalls (added start.calls ((Button.create sampleToolkit 7).run start).2.calls)
        = [Call.lv_button_create 7,
           Call.lv_label_create ((Button.create sampleToolkit 7).run start).1.obj_]
      ∧ createCallsWithParent 7
          (added start.calls ((Button.create sampleToolkit 7).run start).2.calls)
        = [Call.lv_button_create 7] :=
  have hnn : ∀ (l : List Call) (c : Call), c.isCreate = true →
      sampleToolkit.created (l ++ [c]) ≠ nullptr := by
    intro l c _
    simp [sampleToolkit, nullptr]
  ⟨hnn,
   (ctor_holds_created_handle sampleToolkit 7 (string_view.ofLiteral "OK") ["A"] start hnn).1.1,
   (ctor_holds_created_handle sampleToolkit 7 (string_view.ofLiteral "OK") ["A"] start hnn).1.2.2,
   (ctor_holds_created_handle sampleToolkit 7 (string_view.ofLiteral "OK") ["A"] start hnn).2.2.2.2.2.1.1,
   (ctor_holds_created_handle sampleToolkit 7 (string_view.ofLiteral "OK") ["A"] start hnn).2.2.2.2.2.1.2.2.2.1,
   (ctor_holds_created_handle sampleToolkit 7 (string_view.ofLiteral "OK") ["A"] start hnn).2.2.2.2.2.1.2.2.2.2
     (by decide)⟩

/-- C5: `AddCallback(cb, f)` with a zero-argument closure `cb` returns the
wrapper and makes one toolkit call, registering the trampoline `EventCallback`
on the wrapper's handle with filter `f` and, as user-data, the address of an
adapter that was not allocated before and is allocated afterwards; it does not
run `cb`.  Invoking `EventCallback` on any event record carrying that
user-data, whatever its other fields and whatever the log and user state then
are, is defined and applies `cb` exactly once to the user state, changing
nothing else. -/
theorem AddCallback0_registers_trampoline_that_runs_closure_once {σ Child : Type}
    [BaseWrapper Child] (self : Child) (cb : σ → σ) (f : lv_event_code_t) (s : World σ) :
    ((BaseWrapper.AddCallback0 self cb f).run s).1 = self
      ∧ ((BaseWrapper.AddCallback0 self cb f).run s).2.calls
        = s.calls ++ [Call.lv_obj_add_event_cb (BaseWrapper.obj_ self)
            lv_event_cb_t.EventCallback f (s.heap.length + 1)]
      ∧ s.deref (s.heap.length + 1) = none
      ∧ (((BaseWrapper.AddCallback0 self cb f).run s).2.deref (s.heap.length + 1)).isSome = true
      ∧ ((BaseWrapper.AddCallback0 self cb f).run s).2.user = s.user
      ∧ ∀ (code : lv_event_code_t) (current_target original_target : lv_obj_ptr) (param : Nat)
          (calls : List Call) (u : σ),
          UiEventDispatchBase.EventCallback
              { code := code, current_target := current_target,
                original_target := original_target, param := param,
                user_data := s.heap.length + 1 }
              { ((BaseWrapper.AddCallback0 self cb f).run s).2 with calls := calls, user := u }
            = some { ((BaseWrapper.AddCallback0 self cb f).run s).2 with
                calls := calls, user := cb u } := by
  rw [AddCallback0_run]
  refine ⟨rfl, rfl, deref_fresh s, ?_, rfl, ?_⟩
  · rw [deref_new]
    rfl
  · intro code current_target original_target param calls u
    simp only [UiEventDispatchBase.EventCallback, lv_event_get_user_data, deref_new]
    rfl

/-- C6, evaluated where it fails: `Button(7, std::string_view("OKAY", 2))`.
The view denotes the text `"OK"`, but `SetText` forwards `text.data()` without
the length, so the texts the toolkit reads on the nested label's handle `2`
are the empty text and then `"OKAY"`; the last one is not the view's text.
For a default-constructed (null, empty) view it is handed a null pointer.
For the literal `"OK"`, which ends at its NUL, the last text is `"OK"`. -/
theorem Button_text_ctor_forwards_data_without_length :
    (string_view.ofArray "OKAY" 2).text = "OK"
      ∧ ((Button.createText sampleToolkit 7 (string_view.ofArray "OKAY" 2)).run start).1
        = { obj_ := 1, thelabel := { obj_ := 2 } }
      ∧ labelTexts 2
          ((Button.createText sampleToolkit 7 (string_view.ofArray "OKAY" 2)).run start).2.calls
        = [some "", some "OKAY"]
      ∧ (labelTexts 2
          ((Button.createText sampleToolkit 7 (string_view.ofArray "OKAY" 2)).run
            start).2.calls).getLast?
        ≠ some (some (string_view.ofArray "OKAY" 2).text)
      ∧ labelTexts 2
          ((Button.createText sampleToolkit 7 string_view.empty).run start).2.calls
        = [some "", none]
      ∧ labelTexts 2
          ((Button.createText sampleToolkit 7 (string_view.ofLiteral "OK")).run start).2.calls
        = [some "", some "OK"] := by
  refine ⟨by decide, by decide, by decide, by decide, by decide, by decide⟩

/-- C8, as stated, fails: constructing `Button(7)` makes five toolkit calls,
none of which sets the nested label's alignment to `LV_ALIGN_CENTER`. -/
theorem Button_ctor_does_not_center_label :
    ((Button.create sampleToolkit 7).run start).2.calls
        = [Call.lv_button_create 7, Call.lv_label_create 1,
           Call.lv_obj_set_width 2 sampleToolkit.LV_SIZE_CONTENT,
           Call.lv_obj_set_height 2 sampleToolkit.LV_SIZE_CONTENT,
           Call.lv_label_set_text 2 (string_view.ofLiteral "").data]
      ∧ c_string (string_view.ofLiteral "").data = some ""
      ∧ ((Button.create sampleToolkit 7).run start).1.thelabel.obj_ = 2
      ∧ Call.lv_obj_set_align 2 sampleToolkit.LV_ALIGN_CENTER
        ∉ ((Button.create sampleToolkit 7).run start).2.calls := by
  refine ⟨by decide, by decide, by decide, by decide⟩

/-- C8, amended: constructing `Button(p)` creates the native button under
`p`, then creates a nested `Label` whose parent is the new button handle, and
on that label's handle sets the width to `LV_SIZE_CONTENT`, the height to
`LV_SIZE_CONTENT` and the text to the empty string; these five are all its
toolkit calls, so it makes no `lv_obj_set_align` call.  `Bar(p)` makes the
same calls with `lv_bar_create` and ends with `lv_obj_set_align` to
`LV_ALIGN_CENTER` on its nested label. -/
theorem Button_ctor_calls {σ : Type} (tk : Toolkit) (p : lv_obj_ptr) (s : World σ) :
    ((Button.create tk p).run s).2.calls
        = s.calls ++
          [Call.lv_button_create p,
           Call.lv_label_create ((Button.create tk p).run s).1.obj_,
           Call.lv_obj_set_width ((Button.create tk p).run s).1.thelabel.obj_ tk.LV_SIZE_CONTENT,
           Call.lv_obj_set_height ((Button.create tk p).run s).1.thelabel.obj_ tk.LV_SIZE_CONTENT,
           Call.lv_label_set_text ((Button.create tk p).run s).1.thelabel.obj_
             (string_view.ofLiteral "").data]
      ∧ c_string (string_view.ofLiteral "").data = some ""
      ∧ ((Button.create tk p).run s).1.obj_ = tk.created (s.calls ++ [Call.lv_button_create p])
      ∧ ((Button.create tk p).run s).1.thelabel.obj_
        = tk.created (s.calls ++ [Call.lv_button_create p,
            Call.lv_label_create ((Button.create tk p).run s).1.obj_])
      ∧ (∀ (o : lv_obj_ptr) (a : lv_align_t),
          Call.lv_obj_set_align o a ∉ added s.calls ((Button.create tk p).run s).2.calls)
      ∧ ((Bar.create tk p).run s).2.calls
        = s.calls ++
          [Call.lv_bar_create p,
           Call.lv_label_create ((Bar.create tk p).run s).1.obj_,
           Call.lv_obj_set_width ((Bar.create tk p).run s).1.thelabel.obj_ tk.LV_SIZE_CONTENT,
           Call.lv_obj_set_height ((Bar.create tk p).run s).1.thelabel.obj_ tk.LV_SIZE_CONTENT,
           Call.lv_label_set_text ((Bar.create tk p).run s).1.thelabel.obj_
             (string_view.ofLiteral "").data,
           Call.lv_obj_set_align ((Bar.create tk p).run s).1.thelabel.obj_ tk.LV_ALIGN_CENTER] := by
  rw [Button_create_run, Bar_create_run]
  refine ⟨rfl, by decide, rfl, rfl, ?_, rfl⟩
  intro o a
  simp [added_append]

/-- C9, as stated, fails for `SetObject`: on a `Label`, `SetObject(7)` makes
no toolkit call at all, and the wrapper it returns has handle `7` in place of
the former one. -/
theorem SetObject_makes_no_native_call :
    ((BaseOp.invoke sampleToolkit ({} : Label) (BaseOp.SetObject 7)).run start).2.calls = []
      ∧ (added start.calls
          ((BaseOp.invoke sampleToolkit ({} : Label) (BaseOp.SetObject 7)).run start).2.calls).length
        ≠ 1
      ∧ ((BaseOp.invoke sampleToolkit ({} : Label) (BaseOp.SetObject 7)).run start).1
        = { obj_ := 7 } := by
  refine ⟨by decide, by decide, by decide⟩

/-- C9, amended: every listed `BaseWrapper` operation other than `SetObject`
(the sixteen setters and both `AddCallback` overloads) makes exactly one
toolkit call per invocation and returns the same wrapper; `SetObject` makes no
toolkit call, leaves the program state as it is, and returns the wrapper with
its handle replaced by the argument. -/
theorem BaseOp_one_native_call_except_SetObject {σ Child : Type} [BaseWrapper Child]
    (tk : Toolkit) (self : Child) (op : BaseOp σ Child) (s : World σ) :
    (op.isSetObject = false →
        ((op.invoke tk self).run s).1 = self
          ∧ (∃ c : Call, ((op.invoke tk self).run s).2.calls = s.calls ++ [c])
          ∧ (added s.calls ((op.invoke tk self).run s).2.calls).length = 1)
      ∧ ∀ object : lv_obj_ptr,
          (BaseOp.invoke tk self (BaseOp.SetObject object : BaseOp σ Child)).run s
              = (BaseWrapper.assign_obj_ self object, s)
            ∧ BaseWrapper.GetObj (BaseWrapper.assign_obj_ self object) = object := by
  refine ⟨?_, ?_⟩
  · intro h
    obtain ⟨c, hc, _⟩ := BaseOp_invoke_one_call tk self op s h
    refine ⟨BaseOp_invoke_keeps_self tk self op s h, ⟨c, hc⟩, ?_⟩
    rw [hc, added_append]
    rfl
  · intro object
    exact ⟨rfl, BaseWrapper.obj_assign self object⟩

/-- Witness for C9 amended: `SetX(5)` on a `Label` with handle `3`. -/
theorem BaseOp_one_native_call_except_SetObject_witness :
    (BaseOp.setter (Setter.SetX 5) : BaseOp Nat Label).isSetObject = false
      ∧ ((BaseOp.invoke sampleToolkit ({ obj_ := 3 } : Label)
          (BaseOp.setter (Setter.SetX 5))).run start).1 = { obj_ := 3 }
      ∧ (added start.calls ((BaseOp.invoke sampleToolkit ({ obj_ := 3 } : Label)
          (BaseOp.setter (Setter.SetX 5))).run start).2.calls).length = 1 :=
  ⟨rfl,
   ((BaseOp_one_native_call_except_SetObject sampleToolkit ({ obj_ := 3 } : Label)
      (BaseOp.setter (Setter.SetX 5)) start).1 rfl).1,
   ((BaseOp_one_native_call_except_SetObject sampleToolkit ({ obj_ := 3 } : Label)
      (BaseOp.setter (Setter.SetX 5)) start).1 rfl).2.2⟩

/-- C10, as stated, fails: on a default-constructed `Label`, `SetObject(5)`
makes no toolkit call, so no create call has run, and `GetObj()` is `5`, not
null. -/
theorem SetObject_makes_handle_non_null_without_create :
    createCalls ((chain (LabelOp.invoke sampleToolkit) ({} : Label)
        [LabelOp.base (BaseOp.SetObject 5)]).run start).2.calls = []
      ∧ BaseWrapper.GetObj ((chain (LabelOp.invoke sampleToolkit) ({} : Label)
        [LabelOp.base (BaseOp.SetObject 5)]).run start).1 = 5
      ∧ BaseWrapper.GetObj ((chain (LabelOp.invoke sampleToolkit) ({} : Label)
        [LabelOp.base (BaseOp.SetObject 5)]).run start).1 ≠ nullptr := by
  refine ⟨by decide, by decide, by decide⟩

/-- C10, amended: for a default-constructed wrapper (`Label`, `Button`, `Bar`,
`Dropdown`) and every sequence of its operations in which `SetObject` is not
called on it, `GetObj()` is still null afterwards; no sequence of wrapper
operations makes a create call. -/
theorem default_wrapper_handle_null_without_SetObject {σ : Type} (tk : Toolkit) (s : World σ)
    (labelOps : List (LabelOp σ)) (buttonOps : List (ButtonOp σ)) (barOps : List (BarOp σ))
    (dropdownOps : List (DropdownOp σ)) :
    (((∀ op ∈ labelOps, op.isSetObject = false) →
        BaseWrapper.GetObj ((chain (LabelOp.invoke tk) ({} : Label) labelOps).run s).1 = nullptr)
      ∧ createCalls (added s.calls
          ((chain (LabelOp.invoke tk) ({} : Label) labelOps).run s).2.calls) = [])
    ∧ (((∀ op ∈ buttonOps, op.isSetObject = false) →
        BaseWrapper.GetObj ((chain (ButtonOp.invoke tk) ({} : Button) buttonOps).run s).1
          = nullptr)
      ∧ createCalls (added s.calls
          ((chain (ButtonOp.invoke tk) ({} : Button) buttonOps).run s).2.calls) = [])
    ∧ (((∀ op ∈ barOps, op.isSetObject = false) →
        BaseWrapper.GetObj ((chain (BarOp.invoke tk) ({} : Bar) barOps).run s).1 = nullptr)
      ∧ createCalls (added s.calls
          ((chain (BarOp.invoke tk) ({} : Bar) barOps).run s).2.calls) = [])
    ∧ (((∀ op ∈ dropdownOps, op.isSetObject = false) →
        BaseWrapper.GetObj ((chain (DropdownOp.invoke tk) ({} : Dropdown) dropdownOps).run s).1
          = nullptr)
      ∧ createCalls (added s.calls
          ((chain (DropdownOp.invoke tk) ({} : Dropdown) dropdownOps).run s).2.calls) = []) := by
  refine ⟨⟨?_, ?_⟩, ⟨?_, ?_⟩, ⟨?_, ?_⟩, ⟨?_, ?_⟩⟩
  · intro hLabel
    rw [chain_keeps (LabelOp.invoke tk) LabelOp.isSetObject BaseWrapper.GetObj
      (LabelOp_invoke_keeps_obj tk) labelOps _ s hLabel]
    rfl
  · exact chain_no_create (LabelOp.invoke tk) (LabelOp_invoke_no_create tk) labelOps _ s
  · intro hButton
    rw [chain_keeps (ButtonOp.invoke tk) ButtonOp.isSetObject BaseWrapper.GetObj
      (ButtonOp_invoke_keeps_obj tk) buttonOps _ s hButton]
    rfl
  · exact chain_no_create (ButtonOp.invoke tk) (ButtonOp_invoke_no_create tk) buttonOps _ s
  · intro hBar
    rw [chain_keeps (BarOp.invoke tk) BarOp.isSetObject BaseWrapper.GetObj
      (BarOp_invoke_keeps_obj tk) barOps _ s hBar]
    rfl
  · exact chain_no_create (BarOp.invoke tk) (BarOp_invoke_no_create tk) barOps _ s
  · intro hDropdown
    rw [chain_keeps (DropdownOp.invoke tk) DropdownOp.isSetObject BaseWrapper.GetObj
      (DropdownOp_invoke_keeps_obj tk) dropdownOps _ s hDropdown]
    rfl
  · exact chain_no_create (DropdownOp.invoke tk) (DropdownOp_invoke_no_create tk) dropdownOps _ s

/-- Witness for C10 amended: operation sequences without `SetObject` on the
wrapper itself, among them a `SetObject` on the button's nested label. -/
theorem default_wrapper_handle_null_without_SetObject_witness :
    (∀ op ∈ [LabelOp.SetText (string_view.ofLiteral "hi"), LabelOp.base (BaseOp.setter (Setter.SetX 1)),
        LabelOp.base (BaseOp.AddCallback0 (fun n : Nat => n + 1) 0)], op.isSetObject = false)
      ∧ BaseWrapper.GetObj ((chain (LabelOp.invoke sampleToolkit) ({} : Label)
          [LabelOp.SetText (string_view.ofLiteral "hi"), LabelOp.base (BaseOp.setter (Setter.SetX 1)),
           LabelOp.base (BaseOp.AddCallback0 (fun n : Nat => n + 1) 0)]).run start).1 = nullptr
      ∧ BaseWrapper.GetObj ((chain (ButtonOp.invoke sampleToolkit) ({} : Button)
          [ButtonOp.SetText (string_view.ofLiteral "x"), ButtonOp.onLabel (LabelOp.base (BaseOp.SetObject 9))]).run
            start).1 = nullptr
      ∧ BaseWrapper.GetObj ((chain (BarOp.invoke sampleToolkit) ({} : Bar)
          [BarOp.SetValue 42]).run start).1 = nullptr
      ∧ BaseWrapper.GetObj ((chain (DropdownOp.invoke sampleToolkit) ({} : Dropdown)
          [DropdownOp.SetOptions ["A"], DropdownOp.GetSelected]).run start).1 = nullptr :=
  have h := default_wrapper_handle_null_without_SetObject sampleToolkit start
    [LabelOp.SetText (string_view.ofLiteral "hi"), LabelOp.base (BaseOp.setter (Setter.SetX 1)),
      LabelOp.base (BaseOp.AddCallback0 (fun n : Nat => n + 1) 0)]
    [ButtonOp.SetText (string_view.ofLiteral "x"), ButtonOp.onLabel (LabelOp.base (BaseOp.SetObject 9))]
    [BarOp.SetValue 42]
    [DropdownOp.SetOptions ["A"], DropdownOp.GetSelected]
  ⟨by decide, h.1.1 (by decide), h.2.1.1 (by decide), h.2.2.1.1 (by decide),
   h.2.2.2.1 (by decide)⟩

end lvglxx
